import Mathlib

/-!
Shallow embedding of the `practice` PDF-to-text service.

Embedded sources:
* `src/app/ocr_utils.py` — classifier, text extractor, rasterizer, OCR step,
  result assembler, and the `run_ocr` pipeline.
* `src/ocr_utils.py` — the older pipeline variant (`is_pdf_textual`,
  `convert_pdf_to_images`).
* `src/app/main.py` — the HTTP handlers `upload_pdf`, `get_result`,
  `download_file` and the background worker `process_pdf`.

Modelling conventions:
* A PDF on disk is `PdfFile`: it is missing (opening raises
  `FileNotFoundError`), corrupt/encrypted (PyPDF2 raises `PdfReadError`,
  pdf2image raises a rendering error), or readable with a list of pages.
  Each readable page carries the string its text layer extracts to
  (PyPDF2's `extract_text()` returns a `str`, never `None`; the empty
  string means "no text layer") and an opaque identifier for its
  rasterised bitmap.
* Raised Python exceptions are the `.error` branch of `Except`; a function
  whose `try/except` swallows every exception is total and its fallback
  return value is visible in its result type.
* External libraries (EasyOCR's `readtext`, `json.dumps`) are
  universally-quantified function parameters: nothing is assumed about
  them beyond determinism. EasyOCR confidences are Python floats carried
  opaquely as `Rat`; no arithmetic is performed on them.
* The filesystem is explicit: directories are a list of created directory
  names, files an association list from (directory, filename) to content.
-/

/-- Outcome kinds for raised Python exceptions in the PDF pipeline. -/
inductive PdfErr where
  | pdfRead
  | indexError
  | fileNotFound
  | render
deriving DecidableEq, Repr

/-- One page of a readable PDF: the string `extract_text()` yields for it,
and an opaque identifier standing for its rasterised bitmap. -/
structure Page where
  textLayer : String
  scan : Nat
deriving DecidableEq, Repr

/-- A PDF path as the pipeline sees it: missing file, corrupt/encrypted
file, or a readable document with its pages. -/
inductive PdfFile where
  | missing
  | corrupt
  | ok (pages : List Page)
deriving DecidableEq, Repr

/-- One EasyOCR detection as returned by `reader.readtext(img, detail=1)`:
bounding polygon, recognised text, confidence score. -/
structure Detection where
  bbox : List (Int × Int)
  text : String
  confidence : Rat
deriving DecidableEq, Repr

/-- Python's `float(x)` applied to an EasyOCR confidence: a coercion that
does not change the value in this model. -/
def pyFloat (q : Rat) : Rat := q

/-- Explicit filesystem: created directories and an association list from
(directory, filename) paths to file contents. -/
structure FS where
  dirs : List String
  files : List ((String × String) × String)
deriving DecidableEq, Repr

/-- `Path.mkdir(parents=True, exist_ok=True)`. -/
def FS.mkdirP (fs : FS) (d : String) : FS :=
  if d ∈ fs.dirs then fs else { fs with dirs := d :: fs.dirs }

/-- `Path.write_text`: create or overwrite the file at `path`. -/
def FS.writeText (fs : FS) (path : String × String) (content : String) : FS :=
  { fs with files := (path, content) :: fs.files.filter (fun e => decide (e.1 ≠ path)) }

/-- Content of the file at `path`, when it exists. -/
def FS.readFile (fs : FS) (path : String × String) : Option String :=
  (fs.files.find? (fun e => decide (e.1 = path))).map (fun e => e.2)

/- ──────────────────────────────────────────────────────────────
   src/app/ocr_utils.py
   ────────────────────────────────────────────────────────────── -/

/-- Python's `str.strip()`: drop leading and trailing whitespace
characters. -/
def pyStrip (s : String) : String :=
  ⟨((s.data.dropWhile Char.isWhitespace).reverse.dropWhile Char.isWhitespace).reverse⟩

/-- `is_pdf_textual` (src/app/ocr_utils.py:59-75): read the first page,
take `extract_text() or ""` (identity on a `str`), and compare the
stripped length with `min_chars` (default 20). `PdfReadError`,
`IndexError` (no pages) and `FileNotFoundError` are caught and yield
`False`. -/
def is_pdf_textual (pdf : PdfFile) (min_chars : Nat := 20) : Bool :=
  match pdf with
  | .missing => false
  | .corrupt => false
  | .ok pages =>
    match pages with
    | [] => false
    | first_page :: _ =>
      let text := first_page.textLayer
      decide (min_chars ≤ (pyStrip text).length)

/-- `extract_text_pdf` (src/app/ocr_utils.py:78-84): join every page's
`extract_text() or ""` with a blank line; PyPDF2 read errors propagate. -/
def extract_text_pdf (pdf : PdfFile) : Except PdfErr String :=
  match pdf with
  | .missing => .error .fileNotFound
  | .corrupt => .error .pdfRead
  | .ok pages => .ok (String.intercalate "\n\n" (pages.map (fun p => p.textLayer)))

/-- `convert_pdf_to_images` (src/app/ocr_utils.py:90-100): rasterise each
page in page order via `convert_from_path`; there is no `try/except`, so a
rendering failure propagates to the caller. -/
def convert_pdf_to_images (pdf : PdfFile) : Except PdfErr (List Nat) :=
  match pdf with
  | .missing => .error .fileNotFound
  | .corrupt => .error .render
  | .ok pages => .ok (pages.map (fun p => p.scan))

/-- The per-page plain texts built inside `ocr_images`
(src/app/ocr_utils.py:106-134): recognised strings of one page joined by
newlines, one entry per image, in image order. -/
def page_texts (readtext : Nat → List Detection) (images : List Nat) : List String :=
  images.map (fun img => String.intercalate "\n" ((readtext img).map (fun r => r.text)))

/-- The per-page JSON-serialisable detection lists built inside
`ocr_images`: for each image, each detection re-packed as
bbox/text/`float(confidence)`. -/
def per_page_results (readtext : Nat → List Detection) (images : List Nat) :
    List (List Detection) :=
  images.map (fun img =>
    (readtext img).map (fun r =>
      { bbox := r.bbox, text := r.text, confidence := pyFloat r.confidence }))

/-- `ocr_images` (src/app/ocr_utils.py:106-134): run `reader.readtext` on
every image; return the page texts joined by blank lines together with the
per-page detection lists. -/
def ocr_images (readtext : Nat → List Detection) (images : List Nat) :
    String × List (List Detection) :=
  (String.intercalate "\n\n" (page_texts readtext images),
   per_page_results readtext images)

/-- `save_results` (src/app/ocr_utils.py:140-155): create `out_dir` if
absent, then overwrite `result.txt` with the plain text and `result.json`
with `json.dumps(page_json)`; return both paths. `dumps` models the
external `json.dumps(·, ensure_ascii=False, indent=2)`. -/
def save_results (dumps : List (List Detection) → String) (plain_text : String)
    (page_json : List (List Detection)) (out_dir : String) (fs : FS) :
    FS × (String × String) × (String × String) :=
  let fs1 := fs.mkdirP out_dir
  let txt_path := (out_dir, "result.txt")
  let json_path := (out_dir, "result.json")
  let fs2 := fs1.writeText txt_path plain_text
  let fs3 := fs2.writeText json_path (dumps page_json)
  (fs3, txt_path, json_path)

/-- Heavy pipeline components whose invocation `run_ocr` can reach; the
trace below records each invocation. -/
inductive Component where
  | rasterizer
  | recognizer
deriving DecidableEq, Repr

/-- `run_ocr` (src/app/ocr_utils.py:161-172): if the PDF is textual,
extract text directly and save with an empty detection list; otherwise
rasterise, OCR every image, and save. The second component is the trace
of heavy-component invocations (rasterizer once, recognizer once per
image) the control flow performs. -/
def run_ocr (readtext : Nat → List Detection) (dumps : List (List Detection) → String)
    (pdf : PdfFile) (out_dir : String) (fs : FS) :
    Except PdfErr (FS × (String × String) × (String × String)) × List Component :=
  if is_pdf_textual pdf then
    match extract_text_pdf pdf with
    | .error e => (.error e, [])
    | .ok text => (.ok (save_results dumps text [] out_dir fs), [])
  else
    match convert_pdf_to_images pdf with
    | .error e => (.error e, [.rasterizer])
    | .ok images =>
      let res := ocr_images readtext images
      (.ok (save_results dumps res.1 res.2 out_dir fs),
       .rasterizer :: images.map (fun _ => .recognizer))

/- ──────────────────────────────────────────────────────────────
   src/ocr_utils.py — the older pipeline variant
   ────────────────────────────────────────────────────────────── -/

/-- Python's `x is not None` applied to a value that is always a `str`
(PyPDF2's `extract_text()` never returns `None`): constantly true. -/
def strIsNotNone (_ : String) : Bool := true

/-- `is_pdf_textual` (src/ocr_utils.py:40-46), older variant: open the
file, build a `PdfReader`, and test `reader.pages[1].extract_text() is not
None`. Nothing is caught, so a missing file, a corrupt file, and a
document with fewer than two pages all raise. -/
def is_pdf_textual_old (pdf : PdfFile) : Except PdfErr Bool :=
  match pdf with
  | .missing => .error .fileNotFound
  | .corrupt => .error .pdfRead
  | .ok pages =>
    match pages.get? 1 with
    | none => .error .indexError
    | some p => .ok (if strIsNotNone p.textLayer then true else false)

/-- `convert_pdf_to_images` (src/ocr_utils.py:49-56), older variant: call
`convert_from_path` inside `try/except Exception`; on any failure print a
message and fall through, returning `None`. The `Except` layer is the
channel a raised exception would use — the blanket handler means it is
never used, and the caller receives `None` as a fallback value. -/
def convert_pdf_to_images_old (pdf : PdfFile) : Except PdfErr (Option (List Nat)) :=
  match pdf with
  | .missing => .ok none
  | .corrupt => .ok none
  | .ok pages => .ok (some (pages.map (fun p => p.scan)))

/- ──────────────────────────────────────────────────────────────
   src/app/main.py
   ────────────────────────────────────────────────────────────── -/

/-- Association-list lookup for a flat directory of files. -/
def lookupFile (files : List (String × String)) (name : String) : Option String :=
  (files.find? (fun e => decide (e.1 = name))).map (fun e => e.2)

/-- Remove the file with the given name, as `os.remove`/cleanup would. -/
def removeFile (files : List (String × String)) (name : String) :
    List (String × String) :=
  files.filter (fun e => decide (e.1 ≠ name))

/-- Server-side mutable state of src/app/main.py: the flat `uploads/`
directory (UPLOAD_DIR) and the flat `results/` directory (OUT_DIR), each a
map from filename to content. -/
structure MainState where
  uploadFiles : List (String × String)
  outFiles : List (String × String)
deriving DecidableEq, Repr

/-- Responses `upload_pdf` can produce: an `HTTPException` with a client
error status, or a `RedirectResponse` with its URL and status code. -/
inductive UploadResponse where
  | clientError (code : Nat)
  | redirect (url : String) (code : Nat)
deriving DecidableEq, Repr

/-- `upload_pdf` (src/app/main.py:114-163): reject a content type other
than `application/pdf` with 400; reject a size above 50MB with 413;
otherwise save the upload as `{file_id}_{filename}`, schedule
`process_pdf` as a background task, and redirect (303) to
`/result?file_id={file_id}`. `fileId` is the externally generated
`uuid.uuid4()` string; the final boolean records whether
`asyncio.create_task` was reached. -/
def upload_pdf (contentType : String) (size : Nat) (fileId filename content : String)
    (st : MainState) : UploadResponse × MainState × Bool :=
  if contentType ≠ "application/pdf" then
    (.clientError 400, st, false)
  else if 50 * 1024 * 1024 < size then
    (.clientError 413, st, false)
  else
    let path := fileId ++ "_" ++ filename
    let st1 := { st with
      uploadFiles := (path, content) :: removeFile st.uploadFiles path }
    (.redirect ("/result?file_id=" ++ fileId) 303, st1, true)

/-- Views the `/result` template can render (src/app/main.py:179-218):
the error page "Файлы результатов не найдены" when either result file is
absent, or the page with both download links. -/
inductive ResultView where
  | resultFilesNotFound
  | completeView (txtName jsonName : String)
deriving DecidableEq, Repr

/-- `get_result` (src/app/main.py:179-218): look for
`{file_id}_result.txt` and `{file_id}_result.json` in OUT_DIR; if either
is missing render the not-found error page, else render the links page. -/
def get_result (fileId : String) (st : MainState) : ResultView :=
  let txtName := fileId ++ "_result.txt"
  let jsonName := fileId ++ "_result.json"
  if (lookupFile st.outFiles txtName).isNone || (lookupFile st.outFiles jsonName).isNone then
    .resultFilesNotFound
  else
    .completeView txtName jsonName

/-- `download_file` (src/app/main.py:221-233): route `/download/{fname}`;
serve `OUT_DIR / fname` whenever that file exists, else raise a 404
`HTTPException`. There is no task-id segment and no filename allow-list. -/
def download_file (fname : String) (st : MainState) : Except Nat String :=
  match lookupFile st.outFiles fname with
  | none => .error 404
  | some content => .ok content

/-- Per-page records built by `process_pdf`'s OCR loop
(`{"page": i + 1, "text": text}`); the textual path's
`extract_text_from_pdf` result is modelled with the same shape. -/
abbrev BgPages := List (Nat × String)

/-- Outcomes of the callees `process_pdf` (src/app/main.py:50-102)
invokes. `main.py` imports them from `ocr_utils`, but the resolved module
(src/app/ocr_utils.py) defines only `is_pdf_textual` and
`convert_pdf_to_images` of them; `extract_text_from_pdf`,
`recognize_text_with_qwen`, `collect_results` and `cleanup_files` are
absent from the repository. Each callee is therefore a parameter covering
every outcome — `none` is a raised exception (including the
`AttributeError` the missing attributes raise), `some` a normal return.
`collect` yields the contents `collect_results` writes to
`{file_id}_result.txt` / `{file_id}_result.json`. -/
structure BgEnv where
  classify : Option Bool
  extract : Option BgPages
  raster : Option (List Nat)
  recog : Nat → Option String
  collect : BgPages → Option (String × String)
  cleanup : Option Unit

/-- The OCR loop of `process_pdf`: recognise each image in order,
numbering pages from 1; the first raised exception aborts the loop. -/
def recogPages (recog : Nat → Option String) : List Nat → Nat → Option BgPages
  | [], _ => some []
  | img :: rest, i =>
    match recog img with
    | none => none
    | some t => (recogPages recog rest (i + 1)).map (fun ps => (i + 1, t) :: ps)

/-- Tail of `process_pdf` after `pages` is built: `collect_results` writes
both result files into OUT_DIR, then `cleanup_files` removes the uploaded
source file; the paths are returned. A raise anywhere lands in the
`except` block, which logs and returns `(None, None)` — performing no
state change of its own. -/
def process_pdf_finish (env : BgEnv) (fileId uploadName : String) (st : MainState)
    (pages : BgPages) : MainState × Option (String × String) :=
  match env.collect pages with
  | none => (st, none)
  | some (ctxt, cjson) =>
    let txtName := fileId ++ "_result.txt"
    let jsonName := fileId ++ "_result.json"
    let st1 := { st with
      outFiles := (jsonName, cjson) ::
        removeFile ((txtName, ctxt) :: removeFile st.outFiles txtName) jsonName }
    match env.cleanup with
    | none => (st1, none)
    | some _ =>
      ({ st1 with uploadFiles := removeFile st1.uploadFiles uploadName },
       some (txtName, jsonName))

/-- `process_pdf` (src/app/main.py:50-102): classify, then either extract
text directly or rasterise and recognise page by page; collect the
results; clean up the uploaded file. The whole body sits in a
`try/except Exception` whose handler logs the error and returns
`(None, None)`, leaving the filesystem exactly as the failing step left
it. -/
def process_pdf (env : BgEnv) (fileId uploadName : String) (st : MainState) :
    MainState × Option (String × String) :=
  match env.classify with
  | none => (st, none)
  | some true =>
    match env.extract with
    | none => (st, none)
    | some pages => process_pdf_finish env fileId uploadName st pages
  | some false =>
    match env.raster with
    | none => (st, none)
    | some images =>
      match recogPages env.recog images 0 with
      | none => (st, none)
      | some pages => process_pdf_finish env fileId uploadName st pages

/- ──────────────────────────────────────────────────────────────
   Helper lemmas about the filesystem model
   ────────────────────────────────────────────────────────────── -/

theorem find?_filter_ne (l : List ((String × String) × String)) (p q : String × String)
    (hqp : q ≠ p) :
    (l.filter (fun e => decide (e.1 ≠ p))).find? (fun e => decide (e.1 = q))
      = l.find? (fun e => decide (e.1 = q)) := by
  induction l with
  | nil => rfl
  | cons a t ih =>
    by_cases hap : a.1 = p
    · have haq : ¬ a.1 = q := fun h => hqp (h ▸ hap)
      have hfilter : (a :: t).filter (fun e => decide (e.1 ≠ p))
          = t.filter (fun e => decide (e.1 ≠ p)) := by
        simp [List.filter_cons, hap]
      have hfind : (a :: t).find? (fun e => decide (e.1 = q))
          = t.find? (fun e => decide (e.1 = q)) := by
        rw [List.find?_cons_of_neg]
        simpa using haq
      rw [hfilter, hfind, ih]
    · have hfilter : (a :: t).filter (fun e => decide (e.1 ≠ p))
          = a :: t.filter (fun e => decide (e.1 ≠ p)) := by
        simp [List.filter_cons, hap]
      rw [hfilter]
      by_cases haq : a.1 = q
      · rw [List.find?_cons_of_pos, List.find?_cons_of_pos] <;> simpa using haq
      · rw [List.find?_cons_of_neg, List.find?_cons_of_neg, ih] <;> simpa using haq

theorem readFile_writeText_self (fs : FS) (p : String × String) (c : String) :
    (fs.writeText p c).readFile p = some c := by
  unfold FS.writeText FS.readFile
  rw [List.find?_cons_of_pos]
  · rfl
  · simp

theorem readFile_writeText_other (fs : FS) (p q : String × String) (c : String)
    (hqp : q ≠ p) : (fs.writeText p c).readFile q = fs.readFile q := by
  unfold FS.writeText FS.readFile
  rw [List.find?_cons_of_neg, find?_filter_ne _ _ _ hqp]
  simp
  exact fun h => hqp h.symm

theorem dirs_writeText (fs : FS) (p : String × String) (c : String) :
    (fs.writeText p c).dirs = fs.dirs := rfl

theorem mem_dirs_mkdirP (fs : FS) (d : String) : d ∈ (fs.mkdirP d).dirs := by
  unfold FS.mkdirP
  by_cases h : d ∈ fs.dirs
  · simp [h]
  · simp [h]

theorem txt_json_path_ne (dir : String) :
    ((dir, "result.txt") : String × String) ≠ (dir, "result.json") := by
  intro h
  injection h with h1 h2
  exact absurd h2 (by decide)

theorem readFile_save_results_txt (dumps : List (List Detection) → String)
    (t : String) (pj : List (List Detection)) (dir : String) (fs : FS) :
    ((save_results dumps t pj dir fs).1).readFile (dir, "result.txt") = some t := by
  unfold save_results
  simp only
  rw [readFile_writeText_other _ _ _ _ (txt_json_path_ne dir), readFile_writeText_self]

theorem readFile_save_results_json (dumps : List (List Detection) → String)
    (t : String) (pj : List (List Detection)) (dir : String) (fs : FS) :
    ((save_results dumps t pj dir fs).1).readFile (dir, "result.json")
      = some (dumps pj) := by
  unfold save_results
  simp only
  rw [readFile_writeText_self]

theorem mem_dirs_save_results (dumps : List (List Detection) → String)
    (t : String) (pj : List (List Detection)) (dir : String) (fs : FS) :
    dir ∈ ((save_results dumps t pj dir fs).1).dirs := by
  unfold save_results
  simp only
  rw [dirs_writeText, dirs_writeText]
  exact mem_dirs_mkdirP fs dir

/- ──────────────────────────────────────────────────────────────
   Claims
   ────────────────────────────────────────────────────────────── -/

/-- C1: the classifier `is_pdf_textual` returns `true` exactly when the
document has a first page whose stripped text layer has length at least
the threshold; it depends only on the first page; and a missing file, a
corrupt/encrypted file, and a page-less document all yield `false`
instead of an error. -/
theorem claim1_classifier_spec (pages : List Page) (min_chars : Nat) :
    (is_pdf_textual (.ok pages) min_chars = true ↔
      ∃ p l, pages = p :: l ∧ min_chars ≤ (pyStrip p.textLayer).length)
    ∧ is_pdf_textual .corrupt min_chars = false
    ∧ is_pdf_textual .missing min_chars = false
    ∧ is_pdf_textual (.ok []) min_chars = false
    ∧ ∀ p l l', is_pdf_textual (.ok (p :: l)) min_chars
        = is_pdf_textual (.ok (p :: l')) min_chars := by
  refine ⟨?_, rfl, rfl, rfl, fun p l l' => rfl⟩
  cases pages with
  | nil => simp [is_pdf_textual]
  | cons p l =>
    constructor
    · intro h
      exact ⟨p, l, rfl, by simpa [is_pdf_textual] using h⟩
    · rintro ⟨p', l', heq, hle⟩
      injection heq with h1 h2
      subst h1
      simpa [is_pdf_textual] using hle

/-- C7: the result assembler is idempotent — running `save_results` a
second time with the same text, detections and output directory leaves
`result.txt` and `result.json` with contents identical to a single run
(and returns the same paths), and the output directory exists after the
first run. -/
theorem claim7_save_results_idempotent (dumps : List (List Detection) → String)
    (t : String) (pj : List (List Detection)) (dir : String) (fs : FS) :
    ((save_results dumps t pj dir ((save_results dumps t pj dir fs).1)).1).readFile
        (dir, "result.txt")
      = ((save_results dumps t pj dir fs).1).readFile (dir, "result.txt")
    ∧ ((save_results dumps t pj dir ((save_results dumps t pj dir fs).1)).1).readFile
        (dir, "result.json")
      = ((save_results dumps t pj dir fs).1).readFile (dir, "result.json")
    ∧ (save_results dumps t pj dir ((save_results dumps t pj dir fs).1)).2
      = (save_results dumps t pj dir fs).2
    ∧ dir ∈ ((save_results dumps t pj dir fs).1).dirs := by
  refine ⟨?_, ?_, rfl, mem_dirs_save_results dumps t pj dir fs⟩
  · rw [readFile_save_results_txt, readFile_save_results_txt]
  · rw [readFile_save_results_json, readFile_save_results_json]

/-- C8 counterexample: the older rasterizer (src/ocr_utils.py:49-56)
does NOT propagate a rendering failure — on a corrupt and on a missing
PDF it returns normally with the fallback value `None` (the blanket
`except Exception` swallows the error), so the claim that the failure
path is never swallowed is false for this cited variant. -/
theorem claim8_old_raster_swallows_cex :
    convert_pdf_to_images_old PdfFile.corrupt = .ok none
    ∧ convert_pdf_to_images_old PdfFile.missing = .ok none :=
  ⟨rfl, rfl⟩

/-- C8 amended: the current rasterizer (src/app/ocr_utils.py) propagates
the rendering failure of every corrupt or missing PDF as an error to its
caller, while the older variant (src/ocr_utils.py) always returns
normally — its blanket exception handler swallows failures into the
fallback value `None`. -/
theorem claim8_raster_error_propagation (pdf : PdfFile) :
    (pdf = .corrupt ∨ pdf = .missing → ∃ e, convert_pdf_to_images pdf = .error e)
    ∧ ∃ v, convert_pdf_to_images_old pdf = .ok v := by
  constructor
  · rintro (rfl | rfl)
    · exact ⟨.render, rfl⟩
    · exact ⟨.fileNotFound, rfl⟩
  · cases pdf <;> exact ⟨_, rfl⟩

/-- C8 witness: on the corrupt PDF the current rasterizer returns an
error while the older one returns normally. -/
theorem claim8_raster_error_propagation_witness :
    (∃ e, convert_pdf_to_images PdfFile.corrupt = .error e)
    ∧ ∃ v, convert_pdf_to_images_old PdfFile.corrupt = .ok v :=
  ⟨(claim8_raster_error_propagation PdfFile.corrupt).1 (Or.inl rfl),
   (claim8_raster_error_propagation PdfFile.corrupt).2⟩

/-- C2: on a textual PDF, `run_ocr` invokes neither the rasterizer nor
any recognition backend (empty component trace); it succeeds, writing as
`result.txt` the pages' extracted texts joined by a blank-line separator
in page order, and as `result.json` the serialisation of the empty
detection sequence. -/
theorem claim2_textual_pipeline (readtext : Nat → List Detection)
    (dumps : List (List Detection) → String) (pages : List Page)
    (out_dir : String) (fs : FS)
    (h : is_pdf_textual (.ok pages) = true) :
    (run_ocr readtext dumps (.ok pages) out_dir fs).2 = []
    ∧ ∃ fs2 tp jp, (run_ocr readtext dumps (.ok pages) out_dir fs).1 = .ok (fs2, tp, jp)
        ∧ fs2.readFile tp
            = some (String.intercalate "\n\n" (pages.map (fun p => p.textLayer)))
        ∧ fs2.readFile jp = some (dumps []) := by
  have hrun : run_ocr readtext dumps (.ok pages) out_dir fs
      = (.ok (save_results dumps
            (String.intercalate "\n\n" (pages.map (fun p => p.textLayer)))
            [] out_dir fs), []) := by
    unfold run_ocr
    rw [h]
    simp [extract_text_pdf]
  refine ⟨by rw [hrun], ?_⟩
  refine ⟨(save_results dumps
      (String.intercalate "\n\n" (pages.map (fun p => p.textLayer))) [] out_dir fs).1,
    (out_dir, "result.txt"), (out_dir, "result.json"), by rw [hrun]; rfl, ?_, ?_⟩
  · exact readFile_save_results_txt ..
  · exact readFile_save_results_json ..

/-- C2 witness: a one-page PDF whose first page has a 21-character text
layer goes down the textual path. -/
theorem claim2_textual_pipeline_witness :
    is_pdf_textual (.ok [⟨"abcdefghijklmnopqrstu", 0⟩]) = true
    ∧ ((run_ocr (fun _ => []) (fun _ => "[]")
          (.ok [⟨"abcdefghijklmnopqrstu", 0⟩]) "results" ⟨[], []⟩).2 = []
      ∧ ∃ fs2 tp jp,
          (run_ocr (fun _ => []) (fun _ => "[]")
            (.ok [⟨"abcdefghijklmnopqrstu", 0⟩]) "results" ⟨[], []⟩).1
            = .ok (fs2, tp, jp)
          ∧ fs2.readFile tp = some (String.intercalate "\n\n"
              (([⟨"abcdefghijklmnopqrstu", 0⟩] : List Page).map (fun p => p.textLayer)))
          ∧ fs2.readFile jp = some "[]") :=
  ⟨by decide,
   claim2_textual_pipeline (fun _ => []) (fun _ => "[]")
     [⟨"abcdefghijklmnopqrstu", 0⟩] "results" ⟨[], []⟩ (by decide)⟩

/-- C3: on the OCR path, the per-page text entries are one per rasterized
image and in the same order (entry `i` comes from image `i`), the
per-page detection sequence written to `result.json` has one entry per
image, and the image count equals the page count; the trace shows the
rasterizer ran once and the recognizer once per image. -/
theorem claim3_ocr_page_counts (readtext : Nat → List Detection)
    (dumps : List (List Detection) → String) (pages : List Page)
    (out_dir : String) (fs : FS)
    (h : is_pdf_textual (.ok pages) = false) :
    (page_texts readtext (pages.map (fun p => p.scan))).length
        = (pages.map (fun p => p.scan)).length
    ∧ (∀ i : Nat, (page_texts readtext (pages.map (fun p => p.scan)))[i]?
        = ((pages.map (fun p => p.scan))[i]?).map
            (fun img => String.intercalate "\n" ((readtext img).map (fun r => r.text))))
    ∧ (per_page_results readtext (pages.map (fun p => p.scan))).length = pages.length
    ∧ (run_ocr readtext dumps (.ok pages) out_dir fs).2
        = .rasterizer :: (pages.map (fun p => p.scan)).map (fun _ => .recognizer)
    ∧ ∃ fs2 tp jp, (run_ocr readtext dumps (.ok pages) out_dir fs).1 = .ok (fs2, tp, jp)
        ∧ fs2.readFile jp
            = some (dumps (per_page_results readtext (pages.map (fun p => p.scan)))) := by
  have hrun : run_ocr readtext dumps (.ok pages) out_dir fs
      = (.ok (save_results dumps
            (ocr_images readtext (pages.map (fun p => p.scan))).1
            (ocr_images readtext (pages.map (fun p => p.scan))).2 out_dir fs),
         .rasterizer :: (pages.map (fun p => p.scan)).map (fun _ => .recognizer)) := by
    unfold run_ocr
    rw [h]
    simp [convert_pdf_to_images]
  refine ⟨by simp [page_texts], ?_, by simp [per_page_results], by rw [hrun], ?_⟩
  · intro i
    simp [page_texts, List.getElem?_map]
  · refine ⟨(save_results dumps
        (ocr_images readtext (pages.map (fun p => p.scan))).1
        (ocr_images readtext (pages.map (fun p => p.scan))).2 out_dir fs).1,
      (out_dir, "result.txt"), (out_dir, "result.json"), by rw [hrun]; rfl, ?_⟩
    exact readFile_save_results_json ..

/-- C3 witness: a one-page PDF with an empty text layer goes down the
OCR path. -/
theorem claim3_ocr_page_counts_witness :
    (page_texts (fun _ => []) (([⟨"", 7⟩] : List Page).map (fun p => p.scan))).length
        = (([⟨"", 7⟩] : List Page).map (fun p => p.scan)).length
    ∧ (∀ i : Nat, (page_texts (fun _ => []) (([⟨"", 7⟩] : List Page).map (fun p => p.scan)))[i]?
        = ((([⟨"", 7⟩] : List Page).map (fun p => p.scan))[i]?).map
            (fun img => String.intercalate "\n"
              (((fun _ => ([] : List Detection)) img).map (fun r => r.text))))
    ∧ (per_page_results (fun _ => [])
        (([⟨"", 7⟩] : List Page).map (fun p => p.scan))).length
        = ([⟨"", 7⟩] : List Page).length
    ∧ (run_ocr (fun _ => []) (fun _ => "x") (.ok [⟨"", 7⟩]) "results" ⟨[], []⟩).2
        = .rasterizer :: (([⟨"", 7⟩] : List Page).map (fun p => p.scan)).map
            (fun _ => .recognizer)
    ∧ ∃ fs2 tp jp,
        (run_ocr (fun _ => []) (fun _ => "x") (.ok [⟨"", 7⟩]) "results" ⟨[], []⟩).1
          = .ok (fs2, tp, jp)
        ∧ fs2.readFile jp
            = some "x" :=
  claim3_ocr_page_counts (fun _ => []) (fun _ => "x") [⟨"", 7⟩] "results" ⟨[], []⟩
    (by decide)

/-- C4 counterexample: submitting a valid PDF to `upload_pdf`
(src/app/main.py) creates no output-directory marker; an immediate status
poll for the freshly returned task id renders the "result files not
found" error view, not a processing or complete state — refuting the
claim that a poll after submission never yields not-found. -/
theorem claim4_no_eager_marker_cex :
    (upload_pdf "application/pdf" 5 "id0" "a.pdf" "data" ⟨[], []⟩).1
        = .redirect "/result?file_id=id0" 303
    ∧ get_result "id0" (upload_pdf "application/pdf" 5 "id0" "a.pdf" "data" ⟨[], []⟩).2.1
        = .resultFilesNotFound :=
  ⟨rfl, rfl⟩

/-- C4 amended: submission never touches the results store (no marker of
any kind is created there), and a status poll reports the
results-not-found error view exactly as long as either result file is
absent — so a poll between submission and completion yields not-found,
and complete only once both artifacts exist. -/
theorem claim4_status_before_completion (ct : String) (sz : Nat)
    (fid fn c : String) (st : MainState) :
    (upload_pdf ct sz fid fn c st).2.1.outFiles = st.outFiles
    ∧ (get_result fid st = .resultFilesNotFound ↔
        (lookupFile st.outFiles (fid ++ "_result.txt") = none
         ∨ lookupFile st.outFiles (fid ++ "_result.json") = none)) := by
  constructor
  · unfold upload_pdf
    split
    · rfl
    · split <;> rfl
  · unfold get_result
    by_cases h1 : lookupFile st.outFiles (fid ++ "_result.txt") = none <;>
      by_cases h2 : lookupFile st.outFiles (fid ++ "_result.json") = none <;>
        simp [h1, h2, Option.isNone_iff_eq_none]

/-- Helper for C5: behaviour of the tail of `process_pdf` when the
overall run ends in the exception handler. -/
theorem process_pdf_finish_failure (env : BgEnv) (fid up : String) (st : MainState)
    (pages : BgPages)
    (h : (process_pdf_finish env fid up st pages).2 = none) :
    (process_pdf_finish env fid up st pages).1.uploadFiles = st.uploadFiles
    ∧ ((process_pdf_finish env fid up st pages).1.outFiles = st.outFiles
        ∨ env.cleanup = none) := by
  unfold process_pdf_finish at h ⊢
  cases hco : env.collect pages with
  | none => simp [hco]
  | some pair =>
    cases pair with
    | mk ctxt cjson =>
      cases hcl : env.cleanup with
      | none => simp [hco, hcl]
      | some u => rw [hco, hcl] at h; simp at h

/-- C5: the claim that the background exception handler removes the
temporary uploaded source file is false — `cleanup_files` is reached only
on the fully successful path. Counterexample: a run whose very first step
raises ends in the handler (`(None, None)` result) with the uploaded
file still present in the uploads store. -/
theorem claim5_temp_file_kept_cex :
    (process_pdf ⟨none, none, none, fun _ => none, fun _ => none, none⟩
        "id0" "u.pdf" ⟨[("u.pdf", "data")], []⟩).2 = none
    ∧ (process_pdf ⟨none, none, none, fun _ => none, fun _ => none, none⟩
        "id0" "u.pdf" ⟨[("u.pdf", "data")], []⟩).1.uploadFiles
        = [("u.pdf", "data")] :=
  ⟨rfl, rfl⟩

/-- C5 amended: for every exception raised inside the background
pipeline, the handler catches it (the run returns `(None, None)`), writes
no failure marker, and leaves the uploaded temporary source file in
place — removal happens only on complete success; result artifacts exist
after a failed run only when the failing step was the final cleanup,
after both artifacts had already been written. -/
theorem claim5_exception_handler (env : BgEnv) (fid up : String) (st : MainState)
    (h : (process_pdf env fid up st).2 = none) :
    (process_pdf env fid up st).1.uploadFiles = st.uploadFiles
    ∧ ((process_pdf env fid up st).1.outFiles = st.outFiles
        ∨ env.cleanup = none) := by
  unfold process_pdf at h ⊢
  split
  · exact ⟨rfl, Or.inl rfl⟩
  · rename_i heq
    rw [heq] at h
    split
    · exact ⟨rfl, Or.inl rfl⟩
    · rename_i pages hex
      rw [hex] at h
      exact process_pdf_finish_failure env fid up st pages h
  · rename_i heq
    rw [heq] at h
    split
    · exact ⟨rfl, Or.inl rfl⟩
    · rename_i images hra
      rw [hra] at h
      have h2 : (match recogPages env.recog images 0 with
          | none => ((st, none) : MainState × Option (String × String))
          | some pages => process_pdf_finish env fid up st pages).2 = none := h
      split
      · exact ⟨rfl, Or.inl rfl⟩
      · rename_i pages hre
        rw [hre] at h2
        exact process_pdf_finish_failure env fid up st pages h2

/-- C5 witness: the amended statement at a concrete failing run. -/
theorem claim5_exception_handler_witness :
    (process_pdf ⟨none, none, none, fun _ => none, fun _ => none, none⟩
        "id1" "u1.pdf" ⟨[("u1.pdf", "d")], [("z.txt", "y")]⟩).1.uploadFiles
        = [("u1.pdf", "d")]
    ∧ ((process_pdf ⟨none, none, none, fun _ => none, fun _ => none, none⟩
        "id1" "u1.pdf" ⟨[("u1.pdf", "d")], [("z.txt", "y")]⟩).1.outFiles
        = [("z.txt", "y")]
       ∨ BgEnv.cleanup ⟨none, none, none, fun _ => none, fun _ => none, none⟩ = none) :=
  claim5_exception_handler ⟨none, none, none, fun _ => none, fun _ => none, none⟩
    "id1" "u1.pdf" ⟨[("u1.pdf", "d")], [("z.txt", "y")]⟩ rfl

/-- C6 counterexample: `download_file` (src/app/main.py) serves any file
that exists in the shared results directory — here a file named
`notes.txt`, which is neither `result.txt` nor `result.json` — refuting
the claim that any filename other than the two canonical names yields
not-found. -/
theorem claim6_download_any_name_cex :
    download_file "notes.txt" ⟨[], [("notes.txt", "x")]⟩ = .ok "x"
    ∧ "notes.txt" ≠ "result.txt"
    ∧ "notes.txt" ≠ "result.json" :=
  ⟨rfl, by decide, by decide⟩

/-- C6 amended: the download route takes a bare filename with no task-id
scoping and no allow-list; it serves exactly the files present in the
shared results directory and returns the 404 error precisely when no file
of that name exists. -/
theorem claim6_download_serves_existing (fname : String) (st : MainState) :
    (∀ c, download_file fname st = .ok c ↔ lookupFile st.outFiles fname = some c)
    ∧ (download_file fname st = .error 404 ↔ lookupFile st.outFiles fname = none) := by
  unfold download_file
  cases h : lookupFile st.outFiles fname with
  | none => simp
  | some c0 => simp

/-- C9: `upload_pdf` rejects a non-PDF content type with a 400 client
error and an over-50MB upload with a 413 client error, in both cases
leaving the state untouched and starting no background task; otherwise it
saves the upload, starts the task, and returns a 303 redirect to the
status page keyed by the generated task id. -/
theorem claim9_upload_validation (ct : String) (sz : Nat) (fid fn c : String)
    (st : MainState) :
    (ct ≠ "application/pdf" →
        upload_pdf ct sz fid fn c st = (.clientError 400, st, false))
    ∧ (ct = "application/pdf" → 50 * 1024 * 1024 < sz →
        upload_pdf ct sz fid fn c st = (.clientError 413, st, false))
    ∧ (ct = "application/pdf" → sz ≤ 50 * 1024 * 1024 →
        (upload_pdf ct sz fid fn c st).1
            = .redirect ("/result?file_id=" ++ fid) 303
        ∧ (upload_pdf ct sz fid fn c st).2.2 = true) := by
  refine ⟨fun hne => ?_, fun he hsz => ?_, fun he hsz => ?_⟩
  · simp [upload_pdf, hne]
  · simp [upload_pdf, he, hsz]
  · simp [upload_pdf, he, Nat.not_lt.mpr hsz]

/-- C9 witness: the three branches at concrete inputs. -/
theorem claim9_upload_validation_witness :
    upload_pdf "text/plain" 5 "i" "f" "c" ⟨[], []⟩
        = (.clientError 400, ⟨[], []⟩, false)
    ∧ upload_pdf "application/pdf" (50 * 1024 * 1024 + 1) "i" "f" "c" ⟨[], []⟩
        = (.clientError 413, ⟨[], []⟩, false)
    ∧ ((upload_pdf "application/pdf" 7 "i" "f" "c" ⟨[], []⟩).1
          = .redirect ("/result?file_id=" ++ "i") 303
       ∧ (upload_pdf "application/pdf" 7 "i" "f" "c" ⟨[], []⟩).2.2 = true) :=
  ⟨(claim9_upload_validation "text/plain" 5 "i" "f" "c" ⟨[], []⟩).1 (by decide),
   (claim9_upload_validation "application/pdf" (50 * 1024 * 1024 + 1) "i" "f" "c"
      ⟨[], []⟩).2.1 rfl (by decide),
   (claim9_upload_validation "application/pdf" 7 "i" "f" "c" ⟨[], []⟩).2.2 rfl
      (by decide)⟩

/-- C10: the older classifier (src/ocr_utils.py:40-46) returns `True` on
every PDF on which it does not raise — its `False` branch is unreachable
because `extract_text()` on a parsed page yields a string, never `None` —
and it inspects `pages[1]`, so it raises `IndexError` on every
zero-page or single-page PDF instead of classifying it; on a document
with at least two pages it returns `True`. -/
theorem claim10_old_classifier (pdf : PdfFile) (b : Bool) (p q : Page)
    (l : List Page) :
    (is_pdf_textual_old pdf = .ok b → b = true)
    ∧ is_pdf_textual_old (.ok []) = .error .indexError
    ∧ is_pdf_textual_old (.ok [p]) = .error .indexError
    ∧ is_pdf_textual_old (.ok (p :: q :: l)) = .ok true := by
  refine ⟨?_, rfl, rfl, rfl⟩
  intro h
  cases pdf with
  | missing => simp [is_pdf_textual_old] at h
  | corrupt => simp [is_pdf_textual_old] at h
  | ok pages =>
    simp only [is_pdf_textual_old] at h
    cases hg : pages.get? 1 with
    | none => rw [hg] at h; cases h
    | some pg =>
      rw [hg] at h
      cases b with
      | true => rfl
      | false => simp [strIsNotNone] at h

/-- C10 witness: a two-page document classifies as `.ok true`, and a
single-page document raises `IndexError`. -/
theorem claim10_old_classifier_witness :
    (true : Bool) = true
    ∧ is_pdf_textual_old (.ok [⟨"a", 0⟩]) = .error .indexError :=
  ⟨(claim10_old_classifier (.ok [⟨"a", 0⟩, ⟨"b", 1⟩]) true ⟨"a", 0⟩ ⟨"b", 1⟩ []).1 rfl,
   (claim10_old_classifier (.ok [⟨"a", 0⟩]) true ⟨"a", 0⟩ ⟨"b", 1⟩ []).2.2.1⟩
